import Mathlib

/-!
Verification development for the mgjson encoder (`src/mgjson/mgjson.py`).

Shallow embedding conventions:
* Python floats are modelled as rationals (`ℚ`); the claims settled here
  concern string shapes and document structure, which do not depend on
  binary floating-point representation details.  Where Python rounds a
  float to a fixed number of decimal places (round-half-even on the
  exact binary value) we model the rounding with Mathlib's `round`
  (round-half-up); the two differ only on exact ties, which affect no
  claim below.
* Python dicts are ordered; JSON objects are modelled as ordered
  association lists.
* Python exceptions are modelled with `Except`; the error value carries
  the document state at the moment the exception is raised, so that
  "no mutation before the error" is part of the statement.
-/

/- ### Decimal digit rendering

Models Python's decimal rendering of a nonnegative integer (`str(n)`),
as used by `str(value)`, `strftime` field padding and `format`.
`natDigitsAux` is fuel-indexed structural recursion so that the kernel
can evaluate it; `natDigits n` uses fuel `n + 1`, which is always
sufficient since the argument shrinks by a factor of ten each step. -/

def digitChar (n : ℕ) : Char := Char.ofNat (48 + n)

def natDigitsAux : ℕ → ℕ → List Char
  | 0, _ => []
  | fuel + 1, n =>
    if n < 10 then [digitChar n]
    else natDigitsAux fuel (n / 10) ++ [digitChar (n % 10)]

def natDigits (n : ℕ) : List Char := natDigitsAux (n + 1) n

def natStr (n : ℕ) : String := String.mk (natDigits n)

/-- Models Python `str` on an `int`: decimal digits, with a leading `-`
character when the value is negative. -/
def intStr (i : ℤ) : String :=
  if i < 0 then String.mk ('-' :: natDigits i.natAbs) else natStr i.natAbs

/-- Left-pad a character list with `'0'` up to width `w` (no truncation
when the list is already longer), as Python's `0`-fill formatting does. -/
def padLeft0 (w : ℕ) (l : List Char) : List Char :=
  List.replicate (w - l.length) '0' ++ l

/- ### NumberString Codec

`encode_number(number)` in the source is `f"{number:+020.15f}"`: a
mandatory sign, zero-fill to a *minimum* total field width of 20, and
exactly 15 digits after the decimal point.  We model the formatted
value through the integer `round(|q| * 10^15)` of fifteen-decimal
units. -/

def encodeChars (q : ℚ) : List Char :=
  let n := (round (|q| * 1000000000000000)).toNat
  (if q < 0 then '-' else '+') ::
    padLeft0 19 (natDigits (n / 1000000000000000) ++ '.' ::
      padLeft0 15 (natDigits (n % 1000000000000000)))

def encode_number (q : ℚ) : String := String.mk (encodeChars q)


/- ### Timestamp Codec

`timestamp(seconds)` in the source is
`(datetime.datetime(1970, 1, 1) + datetime.timedelta(seconds=seconds))
 .strftime('%Y-%m-%dT%H:%M:%S.%f')[:-3] + 'Z'`.

The date arithmetic is the proleptic Gregorian calendar of Python's
`datetime` module.  `ord2ymd` models CPython's `datetime._ord2ymd`
(ordinal day, 1 = 0001-01-01, to year/month/day) with its nested
divmod chain and month-estimate correction; `daysBeforeMonth` and
`daysInMonth` are CPython's `_DAYS_BEFORE_MONTH` / `_DAYS_IN_MONTH`
tables.  `timedelta(seconds=t)` stores `round(t * 10^6)` microseconds;
adding it to the epoch and formatting with `%f` truncated to three
digits gives the fields below.  1970-01-01 is ordinal 719163.
CPython raises `OverflowError` when the resulting ordinal leaves
[1, 3652059] (year range 1..9999); the format theorem below is
conditional on that range, and outside it this total model yields an
unspecified string where Python raises. -/

def daysBeforeMonth (m : ℕ) : ℕ :=
  match m with
  | 1 => 0 | 2 => 31 | 3 => 59 | 4 => 90 | 5 => 120 | 6 => 151
  | 7 => 181 | 8 => 212 | 9 => 243 | 10 => 273 | 11 => 304 | 12 => 334
  | _ => 0

def daysInMonth (m : ℕ) : ℕ :=
  match m with
  | 1 => 31 | 2 => 28 | 3 => 31 | 4 => 30 | 5 => 31 | 6 => 30
  | 7 => 31 | 8 => 31 | 9 => 30 | 10 => 31 | 11 => 30 | 12 => 31
  | _ => 0

def ord2ymd (o : ℕ) : ℕ × ℕ × ℕ :=
  let n0 := o - 1
  let n400 := n0 / 146097
  let r1 := n0 % 146097
  let n100 := r1 / 36524
  let r2 := r1 % 36524
  let n4 := r2 / 1461
  let r3 := r2 % 1461
  let n1 := r3 / 365
  let n := r3 % 365
  let year := n400 * 400 + 1 + n100 * 100 + n4 * 4 + n1
  if n1 = 4 ∨ n100 = 4 then
    (year - 1, 12, 31)
  else
    let month := (n + 50) / 32
    let preceding :=
      daysBeforeMonth month + (if 2 < month ∧ n1 = 3 ∧ (n4 ≠ 24 ∨ n100 = 3) then 1 else 0)
    if n < preceding then
      (year, month - 1,
        n - (preceding - (daysInMonth (month - 1) +
          (if month - 1 = 2 ∧ n1 = 3 ∧ (n4 ≠ 24 ∨ n100 = 3) then 1 else 0))) + 1)
    else
      (year, month, n - preceding + 1)

def timestamp (t : ℚ) : String :=
  let us : ℤ := round (t * 1000000)
  let tod : ℕ := (us % 86400000000).toNat
  let o : ℕ := (719163 + us / 86400000000).toNat
  String.mk (
    padLeft0 4 (natDigits (ord2ymd o).1) ++ '-' ::
    padLeft0 2 (natDigits (ord2ymd o).2.1) ++ '-' ::
    padLeft0 2 (natDigits (ord2ymd o).2.2) ++ 'T' ::
    padLeft0 2 (natDigits (tod / 3600000000)) ++ ':' ::
    padLeft0 2 (natDigits (tod / 60000000 % 60)) ++ ':' ::
    padLeft0 2 (natDigits (tod / 1000000 % 60)) ++ '.' ::
    padLeft0 3 (natDigits (tod / 1000 % 1000)) ++ ['Z'])

/- ### Timestamp pattern `YYYY-MM-DDTHH:MM:SS.mmmZ`

`shapeCheck s p` checks `s` against a template `p` in which `'0'`
stands for "any decimal digit" and every other character stands for
itself (this also forces the two lists to have the same length). -/

def shapeCheck : List Char → List Char → Bool
  | [], [] => true
  | c :: cs, p :: ps => (if p = '0' then c.isDigit else c == p) && shapeCheck cs ps
  | _, _ => false

def timestampPattern : List Char := "0000-00-00T00:00:00.000Z".data

def isTimestampShape (s : String) : Bool := shapeCheck s.data timestampPattern
/- ### Display names

Python's `str.capitalize()` title-cases the first character and
lower-cases all the rest.  For the ASCII names this codebase deals in,
title-casing the first character is upper-casing it; we model the
case maps with `Char.toUpper` / `Char.toLower` (ASCII case mapping). -/

def pyCapitalize (s : String) : String :=
  match s.data with
  | [] => ""
  | c :: cs => String.mk (c.toUpper :: cs.map Char.toLower)

/-- Modelled from the spec: the display-name default transform the
spec describes — "capitalize the first character of the property name
(rest of the name unchanged)".  Used only to compare the spec's wording
against the code's `str.capitalize()` behaviour. -/
def capitalizeFirstOnly (s : String) : String :=
  match s.data with
  | [] => ""
  | c :: cs => String.mk (c.toUpper :: cs)

/- ### Values and JSON documents

`PyValue` is the runtime type of a value handed to `add_property`:
the three supported types, plus `float` standing for any value whose
type is outside `ALLOWED_STATIC_DATATYPES = [int, bool, str]` (the
spec's canonical example is `3.14`).  Note `type(True) == int` is
false in Python, so booleans take the generic (`else`) branch of
`add_property`'s dispatch, not the number branch.

`JValue` models a Python object tree as fed to `json.dumps(default=vars)`:
dicts are ordered association lists (Python dicts preserve insertion
order, and `vars(obj)` is the instance `__dict__` in attribute-assignment
order), so field order below follows the source's assignment order. -/

inductive PyValue where
  | int (i : ℤ)
  | bool (b : Bool)
  | str (s : String)
  | float (q : ℚ)

inductive JValue where
  | bool (b : Bool)
  | int (n : ℤ)
  | rat (q : ℚ)
  | str (s : String)
  | arr (xs : List JValue)
  | obj (fields : List (String × JValue))

/-- Ordered-dict lookup (first binding wins, as in Python dicts where
keys are unique anyway). -/
def lookupField : List (String × JValue) → String → Option JValue
  | [], _ => none
  | (k, v) :: rest, key => if k = key then some v else lookupField rest key

def getField (j : JValue) (key : String) : Option JValue :=
  match j with
  | .obj fs => lookupField fs key
  | _ => none

def getPath (j : JValue) : List String → Option JValue
  | [] => some j
  | k :: ks =>
    match getField j k with
    | some v => getPath v ks
    | none => none

def objKeys (j : JValue) : Option (List String) :=
  match j with
  | .obj fs => some (fs.map (fun kv => kv.1))
  | _ => none

def objKeysAt (j : JValue) (path : List String) : Option (List String) :=
  (getPath j path).bind objKeys

/- ### Static Property Encoder

`StaticMGJsonData.__init__` sets, in order: `objectType`, `displayName`,
`dataType`, `matchName`, `value`.  `vars()` therefore serializes those
five attributes in that order.  The subclasses add one key to the
`dataType` dict after `super().__init__` (dict mutation, so `type`
stays first).  `DATATYPES_MAP` maps `int ↦ "number"`, `bool ↦ "boolean"`,
`str ↦ "string"`. -/

inductive MgError where
  | unsupportedType
  | emptyStream
  deriving DecidableEq

def DATATYPES_MAP : PyValue → String
  | .int _ => "number"
  | .bool _ => "boolean"
  | .str _ => "string"
  | .float _ => ""

def valueJson : PyValue → JValue
  | .int i => .int i
  | .bool b => .bool b
  | .str s => .str s
  | .float q => .rat q

/-- The `vars()` image of a plain `StaticMGJsonData` instance (the type
check has passed, so `value` is int, bool or str; in `add_property`'s
dispatch only bool reaches this encoder). -/
def StaticMGJsonDataEntry (name : String) (value : PyValue) (display_name : Option String) : JValue :=
  .obj [("objectType", .str "dataStatic"),
        ("displayName", .str (display_name.getD (pyCapitalize name))),
        ("dataType", .obj [("type", .str (DATATYPES_MAP value))]),
        ("matchName", .str name),
        ("value", valueJson value)]

/-- `StaticMGJsonData.__init__`: raises for a value type outside
`ALLOWED_STATIC_DATATYPES` (in Python the `raise` of a plain string
itself raises `TypeError`, but an exception is raised either way,
before any attribute is set), otherwise builds the entry. -/
def StaticMGJsonData (name : String) (value : PyValue) (display_name : Option String) :
    Except MgError JValue :=
  match value with
  | .float _ => .error .unsupportedType
  | v => .ok (StaticMGJsonDataEntry name v display_name)

/-- `StaticMGJsonNumber`: the base entry plus `numberStringProperties`
appended to the `dataType` dict.  `digitsInteger` is `len(str(value))` —
the length of Python's decimal rendering of the int, which includes a
leading `-` for negative values. -/
def StaticMGJsonNumber (name : String) (value : ℤ) (display_name : Option String) : JValue :=
  .obj [("objectType", .str "dataStatic"),
        ("displayName", .str (display_name.getD (pyCapitalize name))),
        ("dataType", .obj [("type", .str "number"),
          ("numberStringProperties", .obj [
            ("pattern", .obj [
              ("isSigned", .bool true),
              ("digitsInteger", .int ((intStr value).length : ℤ)),
              ("digitsDecimal", .int 0)]),
            ("range", .obj [
              ("occuring", .obj [("min", .int value), ("max", .int value)]),
              ("legal", .obj [("min", .int (-2147483648)), ("max", .int 2147483648)])])])]),
        ("matchName", .str name),
        ("value", .int value)]

/-- `StaticMGJsonString`: the base entry plus `paddedStringProperties`. -/
def StaticMGJsonString (name : String) (value : String) (display_name : Option String) : JValue :=
  .obj [("objectType", .str "dataStatic"),
        ("displayName", .str (display_name.getD (pyCapitalize name))),
        ("dataType", .obj [("type", .str "string"),
          ("paddedStringProperties", .obj [
            ("maxLen", .int (value.length : ℤ)),
            ("maxDigitsInStrLength", .int 2),
            ("eventMarkerB", .bool false)])]),
        ("matchName", .str name),
        ("value", .str value)]

/- ### Dynamic Stream Encoder

`DynamicMgJSONData.__init__` computes `max(stream, key=elem[1])[1]` and
`min(...)[1]` — Python's max/min keep the first extremum on ties and
raise `ValueError` on an empty sequence (modelled in `add_stream`).
A falsy `interpolation` argument (absent or the empty string) falls
back to the class default `"hold"`. -/

def streamMaxVal (x : ℚ × ℚ) (xs : List (ℚ × ℚ)) : ℚ :=
  (xs.foldl (fun acc e => if acc.2 < e.2 then e else acc) x).2

def streamMinVal (x : ℚ × ℚ) (xs : List (ℚ × ℚ)) : ℚ :=
  (xs.foldl (fun acc e => if e.2 < acc.2 then e else acc) x).2

def resolveInterpolation (i : Option String) : String :=
  match i with
  | none => "hold"
  | some s => if s = "" then "hold" else s

/-- The `outline` dict built by `DynamicMgJSONData.__init__` for the
non-empty stream `x :: xs` (key order as in the source literal). -/
def DynamicOutline (name : String) (x : ℚ × ℚ) (xs : List (ℚ × ℚ))
    (display_name : Option String) (interpolation : Option String) : JValue :=
  .obj [("objectType", .str "dataDynamic"),
        ("displayName", .str (display_name.getD (pyCapitalize name))),
        ("sampleSetID", .str name),
        ("dataType", .obj [("type", .str "numberString"),
          ("numberStringProperties", .obj [
            ("pattern", .obj [
              ("digitsInteger", .int 3),
              ("digitsDecimal", .int 15),
              ("isSigned", .bool true)]),
            ("range", .obj [
              ("occuring", .obj [("min", .rat (streamMinVal x xs)), ("max", .rat (streamMaxVal x xs))]),
              ("legal", .obj [("min", .int (-2147483648)), ("max", .int 2147483648)])])]),
          ("paddedStringProperties", .obj [
            ("maxLen", .int 0),
            ("maxDigitsInStrLength", .int 0),
            ("eventMarkerB", .bool false)])]),
        ("interpolation", .str (resolveInterpolation interpolation)),
        ("hasExpectedFrequecyB", .bool false),
        ("sampleCount", .int ((xs.length + 1 : ℕ) : ℤ)),
        ("matchName", .str name)]

/-- The `data` dict built by `DynamicMgJSONData.__init__`: one
`{time, value}` pair per sample, in input order. -/
def DynamicSamples (name : String) (stream : List (ℚ × ℚ)) : JValue :=
  .obj [("sampleSetID", .str name),
        ("samples", .arr (stream.map (fun tv =>
          .obj [("time", .str (timestamp tv.1)), ("value", .str (encode_number tv.2))])))]

/- ### Document Assembler -/

structure MgJSON where
  outlines : List JValue
  streams : List JValue

/-- `MgJSON.__init__`: both sequences start empty. -/
def MgJSON.init : MgJSON := ⟨[], []⟩

/-- `MgJSON.add_property`: dispatch on `type(value)`; the chosen
encoder runs first, so on error nothing has been appended — the error
value carries the unchanged document. -/
def add_property (d : MgJSON) (name : String) (value : PyValue)
    (display_name : Option String) : Except (MgError × MgJSON) MgJSON :=
  match value with
  | .int i => .ok ⟨d.outlines ++ [StaticMGJsonNumber name i display_name], d.streams⟩
  | .str s => .ok ⟨d.outlines ++ [StaticMGJsonString name s display_name], d.streams⟩
  | v =>
    match StaticMGJsonData name v display_name with
    | .ok entry => .ok ⟨d.outlines ++ [entry], d.streams⟩
    | .error e => .error (e, d)

/-- `MgJSON.add_stream`: `DynamicMgJSONData(...)` is constructed first —
`max()` on an empty stream raises before anything is appended — then
`stream.outline` and `stream.data` are appended to the two sequences. -/
def add_stream (d : MgJSON) (name : String) (stream : List (ℚ × ℚ))
    (display_name : Option String) (interpolation : Option String) :
    Except (MgError × MgJSON) MgJSON :=
  match stream with
  | [] => .error (.emptyStream, d)
  | x :: xs =>
    .ok ⟨d.outlines ++ [DynamicOutline name x xs display_name interpolation],
         d.streams ++ [DynamicSamples name (x :: xs)]⟩

/-- `create_doc(dynamic)`: the envelope dict, dynamic or static-only
shape. -/
def create_doc (dynamic : Bool) : List (String × JValue) :=
  if dynamic then
    [("version", .str "MGJSON2.0.0"),
     ("creator", .str "python"),
     ("dynamicSamplesPresentB", .bool true),
     ("dynamicDataInfo", .obj [
       ("useTimecodeB", .bool false),
       ("utcInfo", .obj [("precisionLength", .int 3), ("isGMT", .bool true)])]),
     ("dataOutline", .arr []),
     ("dataDynamicSamples", .arr [])]
  else
    [("version", .str "MGJSON2.0.0"),
     ("creator", .str "python"),
     ("dynamicSamplesPresentB", .bool false),
     ("dataOutline", .arr [])]

/-- One `doc[key].append(x)` loop over `new`: appends to the array at
`key` if present.  When `new = []` the loop body never runs, which is
why the static envelope's missing `dataDynamicSamples` key is never
touched in the source. -/
def appendToField (fields : List (String × JValue)) (key : String) (new : List JValue) :
    List (String × JValue) :=
  fields.map (fun kv =>
    if kv.1 = key then
      (kv.1, match kv.2 with
             | .arr xs => .arr (xs ++ new)
             | v => v)
    else kv)

/-- The document value built by the `json` property: `create_doc`
followed by the two append loops.  `!isEmpty` is the source's
`dynamic=len(self.streams) > 0`. -/
def docJson (d : MgJSON) : JValue :=
  .obj (appendToField
          (appendToField (create_doc (!d.streams.isEmpty)) "dataOutline" d.outlines)
          "dataDynamicSamples" d.streams)

/- ### Serialization to text

`json.dumps(doc, default=vars, indent=4)` renders the tree to text.
The claims below depend on which JSON value is rendered and on the
rendering being a function of that value, not on the concrete
whitespace/escaping, so `dumps` is a plain deterministic renderer
(float rendering abbreviated to numerator/denominator form). -/

mutual
def dumps : JValue → String
  | .bool true => "true"
  | .bool false => "false"
  | .int n => intStr n
  | .rat q => intStr q.num ++ "/" ++ natStr q.den
  | .str s => "\"" ++ s ++ "\""
  | .arr xs => "[" ++ dumpsArr xs ++ "]"
  | .obj fs => "\x7b" ++ dumpsObj fs ++ "\x7d"

def dumpsArr : List JValue → String
  | [] => ""
  | [x] => dumps x
  | x :: y :: rest => dumps x ++ ", " ++ dumpsArr (y :: rest)

def dumpsObj : List (String × JValue) → String
  | [] => ""
  | [(k, v)] => "\"" ++ k ++ "\": " ++ dumps v
  | (k, v) :: y :: rest => "\"" ++ k ++ "\": " ++ dumps v ++ ", " ++ dumpsObj (y :: rest)
end

/-- The `json` property, as a state transformer: it reads the document,
builds a fresh envelope dict and returns the serialized text.  The
method body contains no assignment to `self`, so the document component
of the result is the input document unchanged. -/
def MgJSON.json (d : MgJSON) : String × MgJSON :=
  (dumps (docJson d), d)

/- ### Helper lemmas -/

/- ### Digit lemmas -/

theorem digitChar_isDigit {k : ℕ} (h : k < 10) : (digitChar k).isDigit = true := by
  interval_cases k <;> decide

theorem natDigitsAux_length (fuel : ℕ) :
    ∀ n, n < fuel → (natDigitsAux fuel n).length = Nat.log 10 n + 1 := by
  induction fuel with
  | zero => intro n h; omega
  | succ f ih =>
    intro n h
    by_cases h10 : n < 10
    · have hlog : Nat.log 10 n = 0 := Nat.log_eq_zero_iff.mpr (Or.inl h10)
      simp [natDigitsAux, h10, hlog]
    · have hdiv : n / 10 < f := by omega
      have hlog := Nat.log_div_base n 10
      have hpos : 0 < Nat.log 10 n := Nat.log_pos (by norm_num) (by omega)
      simp [natDigitsAux, h10, ih _ hdiv]
      omega

theorem natDigitsAux_isDigit (fuel : ℕ) :
    ∀ n c, c ∈ natDigitsAux fuel n → c.isDigit = true := by
  induction fuel with
  | zero => intro n c h; simp [natDigitsAux] at h
  | succ f ih =>
    intro n c h
    by_cases h10 : n < 10
    · simp [natDigitsAux, h10] at h
      subst h; exact digitChar_isDigit h10
    · simp [natDigitsAux, h10] at h
      rcases h with h | h
      · exact ih _ _ h
      · subst h; exact digitChar_isDigit (Nat.mod_lt _ (by norm_num))

theorem natDigits_length (n : ℕ) : (natDigits n).length = Nat.log 10 n + 1 :=
  natDigitsAux_length _ _ (Nat.lt_succ_self n)

theorem natDigits_isDigit {n : ℕ} {c : Char} (h : c ∈ natDigits n) : c.isDigit = true :=
  natDigitsAux_isDigit _ _ _ h

theorem natDigits_length_le {n k : ℕ} (hk : 1 ≤ k) (h : n < 10 ^ k) :
    (natDigits n).length ≤ k := by
  rw [natDigits_length]
  rcases Nat.eq_zero_or_pos n with rfl | hn
  · simpa using hk
  · have := Nat.log_lt_of_lt_pow (Nat.pos_iff_ne_zero.mp hn) h
    omega

theorem isDigit_ne_dot {c : Char} (h : c.isDigit = true) : c ≠ '.' := by
  intro he; subst he; exact absurd h (by decide)

theorem padLeft0_length (w : ℕ) (l : List Char) : (padLeft0 w l).length = max w l.length := by
  simp [padLeft0]; omega

theorem mem_padLeft0 {w : ℕ} {l : List Char} {c : Char} (h : c ∈ padLeft0 w l) :
    c = '0' ∨ c ∈ l := by
  rcases List.mem_append.mp h with h | h
  · exact Or.inl (List.eq_of_mem_replicate h)
  · exact Or.inr h

theorem padLeft0_digits {k n : ℕ} (hk : 1 ≤ k) (h : n < 10 ^ k) :
    (padLeft0 k (natDigits n)).length = k ∧
      ∀ c ∈ padLeft0 k (natDigits n), c.isDigit = true := by
  constructor
  · rw [padLeft0_length]
    have := natDigits_length_le hk h
    omega
  · intro c hc
    rcases mem_padLeft0 hc with rfl | hc
    · decide
    · exact natDigits_isDigit hc

theorem shapeCheck_append {a p b q : List Char}
    (ha : shapeCheck a p = true) (hb : shapeCheck b q = true) :
    shapeCheck (a ++ b) (p ++ q) = true := by
  induction a generalizing p with
  | nil =>
    cases p with
    | nil => simpa using hb
    | cons d ds => simp [shapeCheck] at ha
  | cons c cs ih =>
    cases p with
    | nil => simp [shapeCheck] at ha
    | cons d ds =>
      simp only [shapeCheck, Bool.and_eq_true] at ha
      simp only [List.cons_append, shapeCheck, Bool.and_eq_true]
      exact ⟨ha.1, ih ha.2⟩

theorem shapeCheck_digits {l : List Char} (h : ∀ c ∈ l, c.isDigit = true) :
    shapeCheck l (List.replicate l.length '0') = true := by
  induction l with
  | nil => rfl
  | cons c cs ih =>
    simp only [List.length_cons, List.replicate_succ, shapeCheck, if_pos rfl,
      Bool.and_eq_true]
    exact ⟨h c (by simp), ih fun d hd => h d (by simp [hd])⟩

theorem shapeCheck_block {l rest prest : List Char} {k : ℕ}
    (hl : l.length = k) (hd : ∀ c ∈ l, c.isDigit = true)
    (hrest : shapeCheck rest prest = true) :
    shapeCheck (l ++ rest) (List.replicate k '0' ++ prest) = true := by
  subst hl
  exact shapeCheck_append (shapeCheck_digits hd) hrest

theorem shapeCheck_sep {c : Char} (hc : ¬c = '0') {rest prest : List Char}
    (h : shapeCheck rest prest = true) :
    shapeCheck (c :: rest) (c :: prest) = true := by
  simp [shapeCheck, hc, h]

set_option maxHeartbeats 2000000 in
/-- Year/month/day bounds for ordinals in `datetime`'s representable
range, enough to guarantee the 4-2-2 digit field widths. -/
theorem ord2ymd_bounds (o : ℕ) (h : o ≤ 3652059) :
    ∀ y m d, ord2ymd o = (y, m, d) → y ≤ 9999 ∧ m ≤ 12 ∧ d ≤ 31 := by
  intro y m d
  simp only [ord2ymd]
  set n0 := o - 1 with hn0
  set n400 := n0 / 146097 with h400
  set r1 := n0 % 146097 with hr1
  set n100 := r1 / 36524 with h100
  set r2 := r1 % 36524 with hr2
  set n4 := r2 / 1461 with h4
  set r3 := r2 % 1461 with hr3
  set n1 := r3 / 365 with h1
  set n := r3 % 365 with hn
  have hn364 : n ≤ 364 := by omega
  set M := (n + 50) / 32 with hM
  have hM1 : 1 ≤ M := by omega
  have hM12 : M ≤ 12 := by omega
  split_ifs <;> intro heq <;>
    simp only [Prod.mk.injEq] at heq <;>
    obtain ⟨hy, hm, hd⟩ := heq <;>
    subst hy <;> subst hm <;> subst hd <;>
    refine ⟨by omega, by omega, ?_⟩ <;>
    first
      | omega
      | (interval_cases M <;> (try simp_all [daysBeforeMonth, daysInMonth]) <;> omega)


/- ### Claim C1: NumberString Codec output shape -/

/-- C1 counterexample: `f"{number:+020.15f}"` zero-fills to a *minimum*
width of 20, so a value whose integer part has more than three digits
produces a longer string — `encode_number(12345)` has 22 characters,
not 20. -/
theorem encode_number_width_counterexample : (encode_number 12345).length ≠ 20 := by
  have h : (round (|(12345 : ℚ)| * 1000000000000000)).toNat = 12345000000000000000 := by
    rw [abs_of_nonneg (by norm_num : (0 : ℚ) ≤ 12345)]
    norm_num [round_eq]
    decide
  have hl : (encode_number 12345).length = (encodeChars 12345).length := rfl
  rw [hl]
  simp only [encodeChars]
  rw [h]
  decide

/-- C1 (amended): for every finite numeric input the NumberString Codec
output begins with a sign character `'+'` or `'-'` (always present),
contains exactly 15 digits after the (unique) decimal point, and has
length at least 20 — exactly 20 whenever the rounded magnitude is below
1000 (i.e. the integer part needs at most the three zero-padded digit
positions). -/
theorem encode_number_shape (q : ℚ) :
    20 ≤ (encode_number q).length ∧
    ((encode_number q).data.head? = some '+' ∨ (encode_number q).data.head? = some '-') ∧
    (∃ a b : List Char, (encode_number q).data = a ++ '.' :: b ∧ '.' ∉ a ∧
      b.length = 15 ∧ ∀ c ∈ b, c.isDigit = true) ∧
    ((round (|q| * 1000000000000000)).toNat < 1000000000000000000 →
      (encode_number q).length = 20) := by
  have hdata : (encode_number q).data = encodeChars q := rfl
  have hlen : (encode_number q).length = (encodeChars q).length := rfl
  have hchars : encodeChars q = (if q < 0 then '-' else '+') ::
      padLeft0 19 (natDigits ((round (|q| * 1000000000000000)).toNat / 1000000000000000) ++ '.' ::
        padLeft0 15 (natDigits ((round (|q| * 1000000000000000)).toNat % 1000000000000000))) := rfl
  set n := (round (|q| * 1000000000000000)).toNat with hn
  have hfp15 : (padLeft0 15 (natDigits (n % 1000000000000000))).length = 15 := by
    rw [padLeft0_length]
    have hmod : n % 1000000000000000 < 1000000000000000 := Nat.mod_lt _ (by norm_num)
    have := natDigits_length_le (show (1 : ℕ) ≤ 15 by norm_num)
      (show n % 1000000000000000 < 10 ^ 15 by simpa using hmod)
    omega
  have hbody : (natDigits (n / 1000000000000000) ++ '.' ::
      padLeft0 15 (natDigits (n % 1000000000000000))).length
      = (natDigits (n / 1000000000000000)).length + 16 := by
    rw [List.length_append, List.length_cons, hfp15]
  have hlen2 : (encodeChars q).length
      = max 19 ((natDigits (n / 1000000000000000)).length + 16) + 1 := by
    rw [hchars]
    show (padLeft0 19 _).length + 1 = _
    rw [padLeft0_length, hbody]
  refine ⟨?_, ?_, ?_, ?_⟩
  · rw [hlen, hlen2]; omega
  · by_cases hq : q < 0
    · right; rw [hdata, hchars, if_pos hq]; rfl
    · left; rw [hdata, hchars, if_neg hq]; rfl
  · refine ⟨(if q < 0 then '-' else '+') ::
      (List.replicate (19 - ((natDigits (n / 1000000000000000)).length + 16)) '0'
        ++ natDigits (n / 1000000000000000)),
      padLeft0 15 (natDigits (n % 1000000000000000)), ?_, ?_, hfp15, ?_⟩
    · rw [hdata, hchars]
      show _ :: padLeft0 19 _ = _
      rw [padLeft0, hbody]
      simp [List.cons_append, List.append_assoc]
    · intro hmem
      rcases List.mem_cons.mp hmem with h | h
      · by_cases hq : q < 0
        · rw [if_pos hq] at h; exact absurd h (by decide)
        · rw [if_neg hq] at h; exact absurd h (by decide)
      · rcases List.mem_append.mp h with h | h
        · exact absurd (List.eq_of_mem_replicate h) (by decide)
        · exact absurd rfl (isDigit_ne_dot (natDigits_isDigit h))
    · intro c hc
      rcases mem_padLeft0 hc with rfl | hc2
      · decide
      · exact natDigits_isDigit hc2
  · intro hsmall
    have hip3 : (natDigits (n / 1000000000000000)).length ≤ 3 := by
      apply natDigits_length_le (show (1 : ℕ) ≤ 3 by norm_num)
      have hdiv : n / 1000000000000000 < 1000 := by omega
      simpa using hdiv
    rw [hlen, hlen2]
    omega

/-- C1 witness: the shape theorem applied at input 0, with the
small-magnitude implication discharged there. -/
theorem encode_number_shape_witness : (encode_number 0).length = 20 :=
  (encode_number_shape 0).2.2.2 (by simp)

/- ### Claim C2: display-name default -/

/-- C2 counterexample: the default display name is Python
`str.capitalize()`, which lower-cases everything after the first
character; it is not the spec's first-character-only transform. -/
theorem display_name_lowercases_rest :
    getField (StaticMGJsonNumber "numberOfCats" 3 none) "displayName"
      = some (.str "Numberofcats") ∧
    capitalizeFirstOnly "numberOfCats" = "NumberOfCats" ∧
    ("Numberofcats" : String) ≠ "NumberOfCats" := by
  have hcap : pyCapitalize "numberOfCats" = "Numberofcats" := by decide
  refine ⟨?_, by decide, by decide⟩
  rw [← hcap]; rfl

/-- C2 (amended): when no display name is supplied, every encoder
defaults `displayName` to `str.capitalize()` of the name — first
character upper-cased and every remaining character lower-cased. -/
theorem display_name_default (name : String) (v : ℤ) (s : String) (b : Bool)
    (x : ℚ × ℚ) (xs : List (ℚ × ℚ)) :
    getField (StaticMGJsonNumber name v none) "displayName"
      = some (.str (pyCapitalize name)) ∧
    getField (StaticMGJsonString name s none) "displayName"
      = some (.str (pyCapitalize name)) ∧
    getField (StaticMGJsonDataEntry name (.bool b) none) "displayName"
      = some (.str (pyCapitalize name)) ∧
    getField (DynamicOutline name x xs none none) "displayName"
      = some (.str (pyCapitalize name)) :=
  ⟨rfl, rfl, rfl, rfl⟩

/- ### Claim C3: static integer descriptor -/

/-- C3 counterexample: `digitsInteger` is `len(str(value))`, which
counts the `-` sign — `-7` gets `digitsInteger = 2` while `7` gets
`digitsInteger = 1`, so it is not the same for `v` and `-v`. -/
theorem digitsInteger_counts_sign :
    getPath (StaticMGJsonNumber "a" (-7) none)
      ["dataType", "numberStringProperties", "pattern", "digitsInteger"] = some (.int 2) ∧
    getPath (StaticMGJsonNumber "a" 7 none)
      ["dataType", "numberStringProperties", "pattern", "digitsInteger"] = some (.int 1) ∧
    (2 : ℤ) ≠ 1 :=
  ⟨rfl, rfl, by decide⟩

/-- C3 (amended): the static integer descriptor has `isSigned = true`,
`digitsInteger = len(str(v))` — the decimal digit count of `|v|` plus
one for the `-` sign when `v` is negative — `digitsDecimal = 0`,
`occuring.min = occuring.max = v` and the fixed legal range
[-2147483648, 2147483648]. -/
theorem static_number_descriptor (name : String) (v : ℤ) (dn : Option String) :
    getPath (StaticMGJsonNumber name v dn)
      ["dataType", "numberStringProperties", "pattern", "isSigned"] = some (.bool true) ∧
    getPath (StaticMGJsonNumber name v dn)
      ["dataType", "numberStringProperties", "pattern", "digitsInteger"]
      = some (.int ((intStr v).length : ℤ)) ∧
    (intStr v).length = (if v < 0 then 1 else 0) + (natDigits v.natAbs).length ∧
    getPath (StaticMGJsonNumber name v dn)
      ["dataType", "numberStringProperties", "pattern", "digitsDecimal"] = some (.int 0) ∧
    getPath (StaticMGJsonNumber name v dn)
      ["dataType", "numberStringProperties", "range", "occuring", "min"] = some (.int v) ∧
    getPath (StaticMGJsonNumber name v dn)
      ["dataType", "numberStringProperties", "range", "occuring", "max"] = some (.int v) ∧
    getPath (StaticMGJsonNumber name v dn)
      ["dataType", "numberStringProperties", "range", "legal", "min"]
      = some (.int (-2147483648)) ∧
    getPath (StaticMGJsonNumber name v dn)
      ["dataType", "numberStringProperties", "range", "legal", "max"]
      = some (.int 2147483648) := by
  refine ⟨rfl, rfl, ?_, rfl, rfl, rfl, rfl, rfl⟩
  unfold intStr
  split_ifs with h
  · show ('-' :: natDigits v.natAbs).length = _
    simp [List.length_cons]
    omega
  · show (natDigits v.natAbs).length = _
    omega

/- ### Claim C4: static numeric outline entry fields -/

/-- C4 counterexample: the serialized entry is `vars()` of the encoder
instance, which also contains the raw `value` attribute — a field the
claim's list does not allow. -/
theorem static_entry_value_field :
    objKeys (StaticMGJsonNumber "a" 3 none)
      = some ["objectType", "displayName", "dataType", "matchName", "value"] ∧
    ("value" : String) ∉ (["objectType", "displayName", "matchName", "dataType"] : List String) :=
  ⟨rfl, by decide⟩

/-- C4 (amended): every static numeric outline entry has exactly the
fields `objectType`, `displayName`, `dataType`, `matchName` and `value`
(in `__init__` assignment order), with `dataType` holding `type` and
`numberStringProperties`, the latter holding `pattern` and `range`. -/
theorem static_number_entry_fields (name : String) (v : ℤ) (dn : Option String) :
    objKeys (StaticMGJsonNumber name v dn)
      = some ["objectType", "displayName", "dataType", "matchName", "value"] ∧
    objKeysAt (StaticMGJsonNumber name v dn) ["dataType"]
      = some ["type", "numberStringProperties"] ∧
    objKeysAt (StaticMGJsonNumber name v dn) ["dataType", "numberStringProperties"]
      = some ["pattern", "range"] ∧
    objKeysAt (StaticMGJsonNumber name v dn)
      ["dataType", "numberStringProperties", "pattern"]
      = some ["isSigned", "digitsInteger", "digitsDecimal"] ∧
    objKeysAt (StaticMGJsonNumber name v dn)
      ["dataType", "numberStringProperties", "range"]
      = some ["occuring", "legal"] :=
  ⟨rfl, rfl, rfl, rfl, rfl⟩

/- ### Claim C5: unsupported value types -/

/-- C5: a value whose runtime type is outside {int, bool, str} (modelled
by the `float` variant, e.g. 3.14) makes `add_property` fail with the
unsupported-type error; the encoder raises before the append, so the
error carries the document unchanged. -/
theorem add_property_unsupported_type (d : MgJSON) (name : String) (q : ℚ)
    (display_name : Option String) :
    add_property d name (.float q) display_name = .error (.unsupportedType, d) := rfl

/- ### Claim C6: empty streams -/

/-- C6: `add_stream` with an empty sample sequence fails with the
empty-stream error (`max()` on an empty sequence raises) before either
sequence is appended to; the error carries the document unchanged. -/
theorem add_stream_empty_stream (d : MgJSON) (name : String)
    (display_name interp : Option String) :
    add_stream d name [] display_name interp = .error (.emptyStream, d) := rfl

/- ### Claim C7: envelope shape -/

/-- C7: with no streams the document serializes with
`dynamicSamplesPresentB = false` and without `dynamicDataInfo` or
`dataDynamicSamples`; with at least one stream it serializes with
`dynamicSamplesPresentB = true`, the fixed `dynamicDataInfo` block and
`dataDynamicSamples`; `dataOutline` lists all entries in declaration
order in both shapes. -/
theorem serialize_envelope (d : MgJSON) :
    (d.streams = [] →
      objKeys (docJson d)
        = some ["version", "creator", "dynamicSamplesPresentB", "dataOutline"] ∧
      getField (docJson d) "dynamicSamplesPresentB" = some (.bool false) ∧
      getField (docJson d) "dataOutline" = some (.arr d.outlines)) ∧
    (d.streams ≠ [] →
      objKeys (docJson d)
        = some ["version", "creator", "dynamicSamplesPresentB", "dynamicDataInfo",
                "dataOutline", "dataDynamicSamples"] ∧
      getField (docJson d) "dynamicSamplesPresentB" = some (.bool true) ∧
      getField (docJson d) "dynamicDataInfo" = some (.obj [
        ("useTimecodeB", .bool false),
        ("utcInfo", .obj [("precisionLength", .int 3), ("isGMT", .bool true)])]) ∧
      getField (docJson d) "dataOutline" = some (.arr d.outlines) ∧
      getField (docJson d) "dataDynamicSamples" = some (.arr d.streams)) := by
  obtain ⟨os, ss⟩ := d
  cases ss with
  | nil => exact ⟨fun _ => ⟨rfl, rfl, rfl⟩, fun h => absurd rfl h⟩
  | cons s rest =>
    exact ⟨fun h => absurd h (List.cons_ne_nil s rest),
           fun _ => ⟨rfl, rfl, rfl, rfl, rfl⟩⟩

/-- C7 witness: both envelope shapes at concrete documents. -/
theorem serialize_envelope_witness :
    getField (docJson ⟨[], []⟩) "dynamicSamplesPresentB" = some (.bool false) ∧
    getField (docJson ⟨[], [JValue.bool true]⟩) "dynamicSamplesPresentB" = some (.bool true) :=
  ⟨((serialize_envelope ⟨[], []⟩).1 rfl).2.1,
   ((serialize_envelope ⟨[], [JValue.bool true]⟩).2 (List.cons_ne_nil _ _)).2.1⟩

/- ### Claim C8: Timestamp Codec format -/

/-- C8: for every offset whose microsecond value (timedelta resolution)
keeps `origin + offset` inside `datetime`'s representable range
(years 1..9999 — outside it CPython raises `OverflowError`), the
Timestamp Codec output matches `YYYY-MM-DDTHH:MM:SS.mmmZ`; and
`timestamp(0.0)` is `1970-01-01T00:00:00.000Z`. -/
theorem timestamp_format (t : ℚ)
    (h1 : -62135596800000000 ≤ round (t * 1000000))
    (h2 : round (t * 1000000) ≤ 253402300799999999) :
    isTimestampShape (timestamp t) = true ∧ timestamp 0 = "1970-01-01T00:00:00.000Z" := by
  constructor
  · have hdata : (timestamp t).data =
        padLeft0 4 (natDigits ((ord2ymd ((719163 + round (t * 1000000) / 86400000000).toNat)).1)) ++ '-' ::
        padLeft0 2 (natDigits ((ord2ymd ((719163 + round (t * 1000000) / 86400000000).toNat)).2.1)) ++ '-' ::
        padLeft0 2 (natDigits ((ord2ymd ((719163 + round (t * 1000000) / 86400000000).toNat)).2.2)) ++ 'T' ::
        padLeft0 2 (natDigits (((round (t * 1000000) % 86400000000).toNat) / 3600000000)) ++ ':' ::
        padLeft0 2 (natDigits (((round (t * 1000000) % 86400000000).toNat) / 60000000 % 60)) ++ ':' ::
        padLeft0 2 (natDigits (((round (t * 1000000) % 86400000000).toNat) / 1000000 % 60)) ++ '.' ::
        padLeft0 3 (natDigits (((round (t * 1000000) % 86400000000).toNat) / 1000 % 1000)) ++ ['Z'] := rfl
    set us := round (t * 1000000) with hus
    set o := (719163 + us / 86400000000).toNat with ho
    set tod := (us % 86400000000).toNat with htod
    have hoB : o ≤ 3652059 := by omega
    have htodB : tod < 86400000000 := by omega
    rcases hymd : ord2ymd o with ⟨y, m, dd⟩
    obtain ⟨hy, hm, hd⟩ := ord2ymd_bounds o hoB y m dd hymd
    rw [hymd] at hdata
    dsimp only at hdata
    show shapeCheck (timestamp t).data timestampPattern = true
    have hpat : timestampPattern =
        List.replicate 4 '0' ++ '-' :: (List.replicate 2 '0' ++ '-' ::
          (List.replicate 2 '0' ++ 'T' :: (List.replicate 2 '0' ++ ':' ::
            (List.replicate 2 '0' ++ ':' :: (List.replicate 2 '0' ++ '.' ::
              (List.replicate 3 '0' ++ ['Z'])))))) := by decide
    rw [hdata, hpat]
    simp only [List.append_assoc, List.cons_append]
    obtain ⟨hy4, hyd⟩ := padLeft0_digits (by norm_num : (1 : ℕ) ≤ 4)
      (lt_of_le_of_lt hy (by norm_num : (9999 : ℕ) < 10 ^ 4))
    obtain ⟨hm2, hmd⟩ := padLeft0_digits (by norm_num : (1 : ℕ) ≤ 2)
      (lt_of_le_of_lt hm (by norm_num : (12 : ℕ) < 10 ^ 2))
    obtain ⟨hd2, hdd⟩ := padLeft0_digits (by norm_num : (1 : ℕ) ≤ 2)
      (lt_of_le_of_lt hd (by norm_num : (31 : ℕ) < 10 ^ 2))
    obtain ⟨hh2, hhd⟩ := padLeft0_digits (by norm_num : (1 : ℕ) ≤ 2)
      (show tod / 3600000000 < 10 ^ 2 by
        have : (10 : ℕ) ^ 2 = 100 := by norm_num
        omega)
    obtain ⟨hmi2, hmid⟩ := padLeft0_digits (by norm_num : (1 : ℕ) ≤ 2)
      (show tod / 60000000 % 60 < 10 ^ 2 by
        have : (10 : ℕ) ^ 2 = 100 := by norm_num
        omega)
    obtain ⟨hs2, hsd⟩ := padLeft0_digits (by norm_num : (1 : ℕ) ≤ 2)
      (show tod / 1000000 % 60 < 10 ^ 2 by
        have : (10 : ℕ) ^ 2 = 100 := by norm_num
        omega)
    obtain ⟨hms3, hmsd⟩ := padLeft0_digits (by norm_num : (1 : ℕ) ≤ 3)
      (show tod / 1000 % 1000 < 10 ^ 3 by
        have : (10 : ℕ) ^ 3 = 1000 := by norm_num
        omega)
    apply shapeCheck_block hy4 hyd
    apply shapeCheck_sep (by decide)
    apply shapeCheck_block hm2 hmd
    apply shapeCheck_sep (by decide)
    apply shapeCheck_block hd2 hdd
    apply shapeCheck_sep (by decide)
    apply shapeCheck_block hh2 hhd
    apply shapeCheck_sep (by decide)
    apply shapeCheck_block hmi2 hmid
    apply shapeCheck_sep (by decide)
    apply shapeCheck_block hs2 hsd
    apply shapeCheck_sep (by decide)
    apply shapeCheck_block hms3 hmsd
    decide
  · have h0 : round ((0 : ℚ) * 1000000) = 0 := by simp
    simp only [timestamp]
    rw [h0]
    decide

/-- C8 witness: the format theorem applied at offset 0, with both range
hypotheses discharged there. -/
theorem timestamp_format_witness :
    isTimestampShape (timestamp 0) = true ∧ timestamp 0 = "1970-01-01T00:00:00.000Z" :=
  timestamp_format 0 (by simp) (by simp)

/- ### Claim C9: serialization is pure and idempotent -/

/-- C9: the `json` property leaves the document (and both of its
sequences) unchanged, and a second serialization of the resulting
document yields the identical output string. -/
theorem serialize_idempotent_pure (d : MgJSON) :
    (MgJSON.json d).2 = d ∧
    (MgJSON.json ((MgJSON.json d).2)).1 = (MgJSON.json d).1 ∧
    (MgJSON.json d).2.outlines = d.outlines ∧
    (MgJSON.json d).2.streams = d.streams :=
  ⟨rfl, rfl, rfl, rfl⟩

/- ### Claim C10: serialization does not end the building phase -/

/-- C10: after reading the serialized output, `add_property` and
`add_stream` still succeed under their usual preconditions, appending
to the same sequences, and a later serialization's arrays contain the
old entries followed by the new one. -/
theorem building_continues_after_serialize (d : MgJSON) (nm nm2 : String) (i : ℤ)
    (dn dn2 interp : Option String) (x : ℚ × ℚ) (xs : List (ℚ × ℚ)) :
    add_property (MgJSON.json d).2 nm (.int i) dn
      = .ok ⟨d.outlines ++ [StaticMGJsonNumber nm i dn], d.streams⟩ ∧
    add_stream (MgJSON.json d).2 nm2 (x :: xs) dn2 interp
      = .ok ⟨d.outlines ++ [DynamicOutline nm2 x xs dn2 interp],
             d.streams ++ [DynamicSamples nm2 (x :: xs)]⟩ ∧
    getField (docJson ⟨d.outlines ++ [StaticMGJsonNumber nm i dn], d.streams⟩) "dataOutline"
      = some (.arr (d.outlines ++ [StaticMGJsonNumber nm i dn])) ∧
    getField (docJson ⟨d.outlines ++ [DynamicOutline nm2 x xs dn2 interp],
                       d.streams ++ [DynamicSamples nm2 (x :: xs)]⟩) "dataDynamicSamples"
      = some (.arr (d.streams ++ [DynamicSamples nm2 (x :: xs)])) := by
  refine ⟨rfl, rfl, ?_, ?_⟩
  · obtain ⟨os, ss⟩ := d
    cases ss <;> rfl
  · obtain ⟨os, ss⟩ := d
    cases ss <;> rfl
